import Mathlib

/-!
Shallow embedding of `redeval/evaluators/faithfulness.py` and proofs of the
spec's claims about it.

Conventions of the embedding:
* Python `str` is Lean `String`.
* Python values `True | False | None` (the type of `verdict_to_bool`'s result)
  are modelled as `Option Bool` (`none` = Python `None`); `int | None` as
  `Option Int`.
* A Python dict whose keys and values are strings is an association list
  `List (String × String)`; `d["k"]` is `List.lookup` plus a `KeyError` when
  the key is absent.
* Python exceptions are modelled with `Except PyError`.
* The external `OpenAICompletion` collaborator is an abstract record of its two
  methods, so it can be instantiated with stubs exactly as the spec's testable
  properties demand.
-/

/-- Errors a Python run of the code can raise: a `KeyError` from a dict access,
or any error raised inside the external completion client. -/
inductive PyError where
  | keyError (key : String)
  | clientError (message : String)
deriving DecidableEq, Repr

/-- A Python dict with string keys and string values, as an association list
(keys unique in actual use; lookup takes the first binding). -/
abbrev PyDict := List (String × String)

/-- Python `str.lower()`, per-character lowering (exact for the ASCII strings
the code compares against). -/
def pyLower (s : String) : String :=
  String.mk (s.data.map Char.toLower)

/-- Embedding of `FaithfulnessFailure.verdict_to_int`:
`verdict = verdict.lower(); score = 1 if verdict == "no" else 0 if verdict == "yes" else None`. -/
def FaithfulnessFailure.verdict_to_int (verdict : String) : Option Int :=
  let verdict := pyLower verdict
  let score := if verdict = "no" then some 1 else if verdict = "yes" then some 0 else none
  score

/-- Embedding of `FaithfulnessFailure.verdict_to_bool`:
`verdict = verdict.lower(); score = True if verdict == "no" else False if verdict == "yes" else None`. -/
def FaithfulnessFailure.verdict_to_bool (verdict : String) : Option Bool :=
  let verdict := pyLower verdict
  let score := if verdict = "no" then some true else if verdict = "yes" then some false else none
  score

/-- Embedding of `FaithfulnessFailure.compute`: reads `faith_eval["verdict"]`
and `faith_eval["explanation"]` (each access raises `KeyError` when the key is
missing) and returns `(verdict_to_bool(verdict), explanation)`. -/
def FaithfulnessFailure.compute (faith_eval : PyDict) : Except PyError (Option Bool × String) :=
  match faith_eval.lookup "verdict" with
  | none => .error (.keyError "verdict")
  | some v =>
    match faith_eval.lookup "explanation" with
    | none => .error (.keyError "explanation")
    | some explanation => .ok (FaithfulnessFailure.verdict_to_bool v, explanation)

/-- One chat message, as the dicts `{"role": ..., "content": ...}` built in
`Faithfulness.evaluate`. -/
structure Message where
  role : String
  content : String
deriving DecidableEq, Repr

/-- The external `OpenAICompletion` collaborator (spec §6): an abstract record
of the two methods `evaluate` calls, each of which may raise. -/
structure CompletionClient where
  get_completion_from_messages : List Message → Except PyError String
  extract_json_from_response : String → Except PyError PyDict

/-- Splits a character list on each occurrence of the two-character placeholder
sequence of Python format strings (an opening brace directly followed by a
closing brace); the pieces are the literal runs between placeholders. -/
def splitOnBrace : List Char → List (List Char)
  | [] => [[]]
  | '\x7b' :: '\x7d' :: rest => [] :: splitOnBrace rest
  | c :: rest =>
    match splitOnBrace rest with
    | [] => [[c]]
    | part :: parts => (c :: part) :: parts

/-- Interleaves the literal pieces of a format string with the positional
arguments, consuming one argument per placeholder. -/
def interleave : List (List Char) → List String → String
  | [], _ => ""
  | [p], _ => String.mk p
  | p :: ps, a :: as => String.mk p ++ (a ++ interleave ps as)
  | p :: _, [] => String.mk p

/-- Python `template.format(*args)` for templates whose placeholders are all
the bare placeholder pair, substituting positionally. (Python raises
`IndexError` when there are more placeholders than arguments; the code's only
template has exactly three placeholders and is always given three arguments,
so that branch is never taken.) -/
def pyFormat (template : String) (args : List String) : String :=
  interleave (splitOnBrace template.data) args

/-- Python `sep.join(xs)`. -/
def pyJoin (sep : String) : List String → String
  | [] => ""
  | [x] => x
  | x :: xs => x ++ sep ++ pyJoin sep xs

/-- Embedding of the class attribute `Faithfulness.SYSTEM_MESSAGE` (the
triple-quoted literal, newlines and indentation included). -/
def Faithfulness.SYSTEM_MESSAGE : String :=
  "\n        You are an expert at evaluating whether the response can be inferred using ONLY the information provided as context.\n    "

/-- Embedding of the class attribute `Faithfulness.USER_MESSAGE_TEMPLATE` (the
triple-quoted literal with its three positional placeholders). -/
def Faithfulness.USER_MESSAGE_TEMPLATE : String :=
  "\n        Let\x27s think step by step.\n        1. Consider the following:\n        context: \x7b\x7d.\n        response:\x7b\x7d.\n        2. Determine if the response can be inferred purely from the context provided.\n        3. Provide a brief explanation of what information the response contained that was not provided to it in the context, labeled as \x27explanation\x27, leading up to a verdict (Yes/No) labeled as \x27verdict\x27.\n        4. Return a JSON object in the following format: \"verdict\": \x27verdict\x27, \"explanation\": \x27explanation\x27.\n\n        Here\x27s are some examples:\n        \x7b\x7d\n    "

/-- The literal run of `USER_MESSAGE_TEMPLATE` before the first placeholder. -/
def UT0 : String :=
  "\n        Let\x27s think step by step.\n        1. Consider the following:\n        context: "

/-- The literal run of `USER_MESSAGE_TEMPLATE` between the first and second
placeholders. -/
def UT1 : String := ".\n        response:"

/-- The literal run of `USER_MESSAGE_TEMPLATE` between the second and third
placeholders. -/
def UT2 : String :=
  ".\n        2. Determine if the response can be inferred purely from the context provided.\n        3. Provide a brief explanation of what information the response contained that was not provided to it in the context, labeled as \x27explanation\x27, leading up to a verdict (Yes/No) labeled as \x27verdict\x27.\n        4. Return a JSON object in the following format: \"verdict\": \x27verdict\x27, \"explanation\": \x27explanation\x27.\n\n        Here\x27s are some examples:\n        "

/-- The literal run of `USER_MESSAGE_TEMPLATE` after the third placeholder. -/
def UT3 : String := "\n    "

/-- Embedding of the class `FewShotExampleFaithfulness`: a record of five
string fields set by its `__init__` and never mutated. -/
structure FewShotExampleFaithfulness where
  context : String
  response : String
  eval_function : String
  eval_result : String
  eval_reason : String
deriving DecidableEq, Repr

/-- Python `str(obj)` for a `FewShotExampleFaithfulness` instance. The class
defines neither a string-conversion nor a representation method, so CPython
falls back to the default object representation: an angle-bracketed tag with
the fully qualified class name and the instance's memory address (an `0x`-
prefixed lowercase hexadecimal number, abstracted here as the parameter
`addr`). None of the instance's field values appear in it. -/
def FewShotExampleFaithfulness.pyStr (_ex : FewShotExampleFaithfulness) (addr : String) : String :=
  "<redeval.evaluators.faithfulness.FewShotExampleFaithfulness object at " ++ addr ++ ">"

/-- The characters that can occur in the abstracted memory address of the
default object representation: the `0x` prefix and lowercase hex digits. -/
def hexAddrChars : String := "0123456789abcdefx"

/-- Embedding of the static method `Faithfulness.get_few_shot_examples`:
builds `example1` with the five hard-coded field values and returns the
double-newline join of the singleton list `[str(example1)]`. `addr` is the
memory address CPython prints in `str(example1)`. -/
def Faithfulness.get_few_shot_examples (addr : String) : String :=
  let example1 : FewShotExampleFaithfulness :=
    { context := "Y Combinator is a startup accelerator launched in March 2005. It has been used to launch more than 4,000 companies"
      response := "125,000"
      eval_function := "is_response_faithful_to_context"
      eval_result := "No"
      eval_reason := "The context does not contain any information to substantiate the response." }
  pyJoin "\n\n" [example1.pyStr addr]

/-- Embedding of the `Faithfulness` object state: the completion-client
reference and the cached few-shot example text, both set by `__init__`. -/
structure Faithfulness where
  openAIcompletion : CompletionClient
  examples : String

/-- Embedding of `Faithfulness.__init__`: stores the completion client (whose
construction from `model` and `open_ai_key` belongs to the external
collaborator) and caches `get_few_shot_examples()`. -/
def Faithfulness.init (client : CompletionClient) (addr : String) : Faithfulness :=
  { openAIcompletion := client
    examples := Faithfulness.get_few_shot_examples addr }

/-- A call `evaluate` makes on the external completion client, recorded in
order of occurrence. -/
inductive Event where
  | getCompletion (messages : List Message)
  | extractJson (raw : String)
deriving DecidableEq, Repr

/-- Returns true exactly on the events recording a call of
`get_completion_from_messages`. -/
def Event.isGetCompletion : Event → Bool
  | .getCompletion _ => true
  | _ => false

/-- The observable outcome of one `evaluate` invocation: the returned value or
raised error, the calls made on the completion client in order, and the state
of the `Faithfulness` object after the call. -/
structure EvalOutcome where
  result : Except PyError (Option Bool × String)
  calls : List Event
  selfAfter : Faithfulness

/-- Embedding of `Faithfulness.evaluate`, line by line: renders the user
message from the template with `(context, response, self.examples)`, builds
the two-message list, calls `get_completion_from_messages` then
`extract_json_from_response` (each call is recorded; a raised error aborts the
body and propagates), and finishes with `FaithfulnessFailure.compute`. The
method only reads `self`, so the object state is returned unchanged. -/
def Faithfulness.evaluate (self : Faithfulness) (context response : String) : EvalOutcome :=
  let user_message := pyFormat Faithfulness.USER_MESSAGE_TEMPLATE [context, response, self.examples]
  let system_message := Faithfulness.SYSTEM_MESSAGE
  let message : List Message :=
    [{ role := "system", content := system_message },
     { role := "user", content := user_message }]
  match self.openAIcompletion.get_completion_from_messages message with
  | .error e => { result := .error e, calls := [.getCompletion message], selfAfter := self }
  | .ok openai_response =>
    match self.openAIcompletion.extract_json_from_response openai_response with
    | .error e =>
      { result := .error e
        calls := [.getCompletion message, .extractJson openai_response]
        selfAfter := self }
    | .ok openai_response_json =>
      { result := FaithfulnessFailure.compute openai_response_json
        calls := [.getCompletion message, .extractJson openai_response]
        selfAfter := self }

/-- The string `needle` occurs contiguously inside `hay`. -/
def strContains (hay needle : String) : Prop :=
  ∃ pre post : String, hay = pre ++ (needle ++ post)

/-- Appending strings appends their character lists. -/
theorem strData_append (a b : String) : (a ++ b).data = a.data ++ b.data :=
  String.data_append a b

/-- String append is associative. -/
theorem strAppend_assoc (a b c : String) : (a ++ b) ++ c = a ++ (b ++ c) := by
  apply String.ext
  simp [strData_append, List.append_assoc]

/-- Every character of a contained substring is a character of the haystack. -/
theorem mem_data_of_strContains {hay needle : String} (h : strContains hay needle) :
    ∀ ch ∈ needle.data, ch ∈ hay.data := by
  obtain ⟨pre, post, rfl⟩ := h
  intro ch hch
  simp only [strData_append, List.mem_append]
  exact Or.inr (Or.inl hch)

/-- A string with a character the haystack lacks is not contained in it. -/
theorem not_strContains_of_missing_char (hay needle : String) (ch : Char)
    (hn : ch ∈ needle.data) (hh : ch ∉ hay.data) : ¬ strContains hay needle :=
  fun h => hh (mem_data_of_strContains h ch hn)

/-- Containment is preserved by extending the haystack on the left. -/
theorem strContains_appendLeft (a : String) {b n : String} (h : strContains b n) :
    strContains (a ++ b) n := by
  obtain ⟨pre, post, rfl⟩ := h
  exact ⟨a ++ pre, post, (strAppend_assoc a pre (n ++ post)).symm⟩

set_option maxRecDepth 10000 in
/-- Splitting the user-message template at its placeholders yields the four
literal runs `UT0`, `UT1`, `UT2`, `UT3`. -/
theorem splitOnBrace_template :
    splitOnBrace Faithfulness.USER_MESSAGE_TEMPLATE.data =
      [UT0.data, UT1.data, UT2.data, UT3.data] := by
  decide

set_option maxRecDepth 10000 in
/-- Rendering the user-message template with `(c, r, ex)` produces the four
literal runs interleaved with the three arguments. -/
theorem pyFormat_template (c r ex : String) :
    pyFormat Faithfulness.USER_MESSAGE_TEMPLATE [c, r, ex] =
      UT0 ++ (c ++ (UT1 ++ (r ++ (UT2 ++ (ex ++ UT3))))) := by
  simp only [pyFormat, splitOnBrace_template, interleave]
  rfl

/-- The few-shot examples string is the default object representation of
`example1`: a fixed prefix, the memory address, and a closing angle bracket. -/
theorem get_few_shot_examples_eq (addr : String) :
    Faithfulness.get_few_shot_examples addr =
      "<redeval.evaluators.faithfulness.FewShotExampleFaithfulness object at " ++ addr ++ ">" :=
  rfl

/-- C1: for every string that lowercases to "yes", `verdict_to_bool` returns
`False` and `verdict_to_int` returns `0`; for every string that lowercases to
"no", `verdict_to_bool` returns `True` and `verdict_to_int` returns `1`
(Python `True`/`False` are `some true`/`some false` in the embedding). -/
theorem verdict_mapping_yes_no (s : String) :
    (pyLower s = "yes" →
      FaithfulnessFailure.verdict_to_bool s = some false ∧
      FaithfulnessFailure.verdict_to_int s = some 0) ∧
    (pyLower s = "no" →
      FaithfulnessFailure.verdict_to_bool s = some true ∧
      FaithfulnessFailure.verdict_to_int s = some 1) := by
  constructor <;> intro h <;>
    simp [FaithfulnessFailure.verdict_to_bool, FaithfulnessFailure.verdict_to_int, h]

/-- Witness for C1 at the concrete verdicts "Yes" and "NO". -/
theorem verdict_mapping_yes_no_witness :
    (FaithfulnessFailure.verdict_to_bool "Yes" = some false ∧
     FaithfulnessFailure.verdict_to_int "Yes" = some 0) ∧
    (FaithfulnessFailure.verdict_to_bool "NO" = some true ∧
     FaithfulnessFailure.verdict_to_int "NO" = some 1) :=
  ⟨(verdict_mapping_yes_no "Yes").1 (by decide), (verdict_mapping_yes_no "NO").2 (by decide)⟩

/-- C2: for every string that lowercases to neither "yes" nor "no", both
mapping functions return the unknown sentinel `None` (`none` in the
embedding), which is distinct from every `True`/`False`/`0`/`1` result. -/
theorem verdict_mapping_unknown (s : String)
    (hy : pyLower s ≠ "yes") (hn : pyLower s ≠ "no") :
    FaithfulnessFailure.verdict_to_bool s = none ∧
    FaithfulnessFailure.verdict_to_int s = none ∧
    FaithfulnessFailure.verdict_to_bool s ≠ some true ∧
    FaithfulnessFailure.verdict_to_bool s ≠ some false ∧
    FaithfulnessFailure.verdict_to_int s ≠ some 0 ∧
    FaithfulnessFailure.verdict_to_int s ≠ some 1 := by
  simp [FaithfulnessFailure.verdict_to_bool, FaithfulnessFailure.verdict_to_int, hy, hn]

/-- Witness for C2 at the concrete string "maybe". -/
theorem verdict_mapping_unknown_witness :
    FaithfulnessFailure.verdict_to_bool "maybe" = none ∧
    FaithfulnessFailure.verdict_to_int "maybe" = none ∧
    FaithfulnessFailure.verdict_to_bool "maybe" ≠ some true ∧
    FaithfulnessFailure.verdict_to_bool "maybe" ≠ some false ∧
    FaithfulnessFailure.verdict_to_int "maybe" ≠ some 0 ∧
    FaithfulnessFailure.verdict_to_int "maybe" ≠ some 1 :=
  verdict_mapping_unknown "maybe" (by decide) (by decide)

/-- C4: on any dict binding "verdict" to `v` and "explanation" to `e`,
`compute` returns `(verdict_to_bool v, e)`; in particular it maps the "No"
dict to `(True, "X")` and the "Yes" dict to `(False, "Y")`. -/
theorem compute_pairs_verdict_with_explanation :
    (∀ (d : PyDict) (v e : String),
      d.lookup "verdict" = some v → d.lookup "explanation" = some e →
      FaithfulnessFailure.compute d = .ok (FaithfulnessFailure.verdict_to_bool v, e)) ∧
    FaithfulnessFailure.compute [("verdict", "No"), ("explanation", "X")]
      = .ok (some true, "X") ∧
    FaithfulnessFailure.compute [("verdict", "Yes"), ("explanation", "Y")]
      = .ok (some false, "Y") := by
  refine ⟨fun d v e hv he => ?_, rfl, rfl⟩
  unfold FaithfulnessFailure.compute
  rw [hv, he]

/-- Witness for C4 at a concrete dict with a lowercase verdict. -/
theorem compute_pairs_verdict_with_explanation_witness :
    FaithfulnessFailure.compute [("verdict", "no"), ("explanation", "Z")]
      = .ok (FaithfulnessFailure.verdict_to_bool "no", "Z") :=
  compute_pairs_verdict_with_explanation.1
    [("verdict", "no"), ("explanation", "Z")] "no" "Z" rfl rfl

/-- Containment is preserved by extending the haystack on the right. -/
theorem strContains_appendRight (b : String) {a n : String} (h : strContains a n) :
    strContains (a ++ b) n := by
  obtain ⟨pre, post, rfl⟩ := h
  refine ⟨pre, post ++ b, ?_⟩
  rw [strAppend_assoc, strAppend_assoc]

/-- C3: with the completion client stubbed to succeed and yield a fixed
extracted dict, `evaluate` returns the pair `(verdict_to_bool verdict,
explanation)` demanded by the spec scenarios: the "No" dict gives
`(True, "The context does not substantiate the response.")` and the "Yes"
dict gives `(False, "Fully supported.")`. -/
theorem evaluate_stubbed_verdicts (client : CompletionClient)
    (ex context response raw : String) (d : PyDict)
    (hget : ∀ m, client.get_completion_from_messages m = .ok raw)
    (hext : client.extract_json_from_response raw = .ok d) :
    (d.lookup "verdict" = some "No" →
     d.lookup "explanation" = some "The context does not substantiate the response." →
      (Faithfulness.evaluate ⟨client, ex⟩ context response).result =
        .ok (some true, "The context does not substantiate the response.")) ∧
    (d.lookup "verdict" = some "Yes" →
     d.lookup "explanation" = some "Fully supported." →
      (Faithfulness.evaluate ⟨client, ex⟩ context response).result =
        .ok (some false, "Fully supported.")) := by
  constructor <;> intro hv he <;>
    simp [Faithfulness.evaluate, hget, hext, FaithfulnessFailure.compute, hv, he] <;>
    decide

/-- Witness for C3: a concrete stub client run on the spec's example context
and response. -/
theorem evaluate_stubbed_verdicts_witness :
    (Faithfulness.evaluate
        ⟨⟨fun _ => .ok "raw",
          fun _ => .ok [("verdict", "No"),
                        ("explanation", "The context does not substantiate the response.")]⟩,
         "examples"⟩
        "Y Combinator is a startup accelerator launched in March 2005." "125,000").result =
      .ok (some true, "The context does not substantiate the response.") :=
  (evaluate_stubbed_verdicts _ "examples"
      "Y Combinator is a startup accelerator launched in March 2005." "125,000" "raw"
      [("verdict", "No"),
       ("explanation", "The context does not substantiate the response.")]
      (fun _ => rfl) rfl).1 rfl rfl

/-- C5: every `evaluate` call sends exactly one message list, holding exactly
two messages: the system message with the fixed `SYSTEM_MESSAGE` content, and
the user message, whose content contains the context, the response and the
cached examples block verbatim. -/
theorem evaluate_sends_two_messages (self : Faithfulness) (context response : String) :
    ∃ user_content : String,
      (Faithfulness.evaluate self context response).calls.head? =
        some (.getCompletion
          [{ role := "system", content := Faithfulness.SYSTEM_MESSAGE },
           { role := "user", content := user_content }]) ∧
      strContains user_content context ∧
      strContains user_content response ∧
      strContains user_content self.examples := by
  refine ⟨pyFormat Faithfulness.USER_MESSAGE_TEMPLATE [context, response, self.examples],
    ?_, ?_, ?_, ?_⟩
  · simp only [Faithfulness.evaluate]
    split
    · rfl
    · split <;> rfl
  · rw [pyFormat_template]
    exact ⟨UT0, UT1 ++ (response ++ (UT2 ++ (self.examples ++ UT3))), rfl⟩
  · rw [pyFormat_template]
    refine strContains_appendLeft UT0 (strContains_appendLeft context ?_)
    exact ⟨UT1, UT2 ++ (self.examples ++ UT3), rfl⟩
  · rw [pyFormat_template]
    refine strContains_appendLeft UT0 (strContains_appendLeft context
      (strContains_appendLeft UT1 (strContains_appendLeft response ?_)))
    exact ⟨UT2, UT3, rfl⟩

/-- C6: `evaluate` propagates errors unchanged: an error raised by
`get_completion_from_messages`, an error raised by
`extract_json_from_response`, and the `KeyError` from a missing "verdict" or
"explanation" key each surface as the invocation's result, with no fallback
value. -/
theorem evaluate_propagates_errors (client : CompletionClient)
    (ex context response : String) (e : PyError) :
    ((∀ m, client.get_completion_from_messages m = .error e) →
      (Faithfulness.evaluate ⟨client, ex⟩ context response).result = .error e) ∧
    (∀ raw, (∀ m, client.get_completion_from_messages m = .ok raw) →
      client.extract_json_from_response raw = .error e →
      (Faithfulness.evaluate ⟨client, ex⟩ context response).result = .error e) ∧
    (∀ raw d, (∀ m, client.get_completion_from_messages m = .ok raw) →
      client.extract_json_from_response raw = .ok d →
      d.lookup "verdict" = none →
      (Faithfulness.evaluate ⟨client, ex⟩ context response).result =
        .error (.keyError "verdict")) ∧
    (∀ raw d v, (∀ m, client.get_completion_from_messages m = .ok raw) →
      client.extract_json_from_response raw = .ok d →
      d.lookup "verdict" = some v → d.lookup "explanation" = none →
      (Faithfulness.evaluate ⟨client, ex⟩ context response).result =
        .error (.keyError "explanation")) := by
  refine ⟨fun hget => ?_, fun raw hget hext => ?_,
    fun raw d hget hext hv => ?_, fun raw d v hget hext hv he => ?_⟩
  · simp [Faithfulness.evaluate, hget]
  · simp [Faithfulness.evaluate, hget, hext]
  · simp [Faithfulness.evaluate, hget, hext, FaithfulnessFailure.compute, hv]
  · simp [Faithfulness.evaluate, hget, hext, FaithfulnessFailure.compute, hv, he]

/-- Witness for C6: a stub client whose completion call raises. -/
theorem evaluate_propagates_errors_witness :
    (Faithfulness.evaluate
        ⟨⟨fun _ => .error (.clientError "boom"), fun _ => .error (.clientError "boom")⟩,
         "examples"⟩
        "some context" "some response").result = .error (.clientError "boom") :=
  (evaluate_propagates_errors _ "examples" "some context" "some response"
      (.clientError "boom")).1 (fun _ => rfl)

/-- C7: every `evaluate` invocation makes exactly one call to the client's
`get_completion_from_messages`, whether the run succeeds or raises. -/
theorem evaluate_single_completion_call (self : Faithfulness) (context response : String) :
    ((Faithfulness.evaluate self context response).calls.countP
      (fun ev => ev.isGetCompletion)) = 1 := by
  simp only [Faithfulness.evaluate]
  split
  · rfl
  · split <;> rfl

/-- C8: `__init__` stores the client and the examples text once, and
`evaluate` leaves the object state untouched in every branch. -/
theorem evaluate_mutates_nothing (client : CompletionClient) (addr : String)
    (self : Faithfulness) (context response : String) :
    (Faithfulness.init client addr).openAIcompletion = client ∧
    (Faithfulness.init client addr).examples = Faithfulness.get_few_shot_examples addr ∧
    (Faithfulness.evaluate self context response).selfAfter = self := by
  refine ⟨rfl, rfl, ?_⟩
  simp only [Faithfulness.evaluate]
  split
  · rfl
  · split <;> rfl

set_option maxRecDepth 10000 in
/-- The literal run `UT2` of the template contains "No": it carries the
"(Yes/No)" verdict label. -/
theorem UT2_contains_No : strContains UT2 "No" :=
  ⟨".\n        2. Determine if the response can be inferred purely from the context provided.\n        3. Provide a brief explanation of what information the response contained that was not provided to it in the context, labeled as \x27explanation\x27, leading up to a verdict (Yes/",
   ") labeled as \x27verdict\x27.\n        4. Return a JSON object in the following format: \"verdict\": \x27verdict\x27, \"explanation\": \x27explanation\x27.\n\n        Here\x27s are some examples:\n        ",
   by decide⟩

/-- A character outside the fixed representation prefix, the address and the
closing angle bracket is not a character of the examples string. -/
theorem not_mem_examples_data (addr : String) (ch : Char)
    (hfix : ch ∉ ("<redeval.evaluators.faithfulness.FewShotExampleFaithfulness object at " : String).data)
    (haddr : ch ∉ addr.data) (hgt : ch ≠ '>') :
    ch ∉ (Faithfulness.get_few_shot_examples addr).data := by
  rw [get_few_shot_examples_eq]
  simp only [strData_append, List.mem_append]
  rintro ((h | h) | h)
  · exact hfix h
  · exact haddr h
  · exact hgt (List.mem_singleton.mp h)

/-- A character outside the four template runs, the two inputs and the
examples block is not a character of the rendered user message. -/
theorem not_mem_rendered_data (c r ex : String) (ch : Char)
    (h0 : ch ∉ UT0.data) (h1 : ch ∉ UT1.data) (h2 : ch ∉ UT2.data) (h3 : ch ∉ UT3.data)
    (hc : ch ∉ c.data) (hr : ch ∉ r.data) (hex : ch ∉ ex.data) :
    ch ∉ (pyFormat Faithfulness.USER_MESSAGE_TEMPLATE [c, r, ex]).data := by
  rw [pyFormat_template]
  simp only [strData_append, List.mem_append]
  rintro (h | h | h | h | h | h | h)
  · exact h0 h
  · exact hc h
  · exact h1 h
  · exact hr h
  · exact h2 h
  · exact hex h
  · exact h3 h

set_option maxRecDepth 10000 in
/-- C9 counterexample: the rendered user prompt does contain "No" as a
substring — the template's "(Yes/No)" verdict label contributes it — already
with empty context and response and a well-formed hexadecimal address, so the
rendered prompt is not free of the example's field values. -/
theorem rendered_prompt_contains_No :
    strContains
      (pyFormat Faithfulness.USER_MESSAGE_TEMPLATE
        ["", "", Faithfulness.get_few_shot_examples "0x10ab"]) "No" := by
  rw [pyFormat_template]
  exact strContains_appendLeft UT0 (strContains_appendLeft ""
    (strContains_appendLeft UT1 (strContains_appendLeft ""
      (strContains_appendRight _ UT2_contains_No))))

set_option maxRecDepth 10000 in
/-- C9 (amended): the examples string is the default object representation,
so it contains none of the example's field values — not the hard-coded
context, not "125,000", not "No", not the eval reason — for any hexadecimal
address; the rendered user prompt keeps the hard-coded context, the eval
reason and "125,000" out as long as the supplied context and response (and,
for "125,000", the address) lack their marker characters, but it always
contains "No", contributed by the template's "(Yes/No)" label. -/
theorem examples_default_repr_contents (addr c r : String)
    (haddr : ∀ ch ∈ addr.data, ch ∈ hexAddrChars.data) :
    (¬ strContains (Faithfulness.get_few_shot_examples addr)
        "Y Combinator is a startup accelerator launched in March 2005. It has been used to launch more than 4,000 companies") ∧
    (¬ strContains (Faithfulness.get_few_shot_examples addr) "125,000") ∧
    (¬ strContains (Faithfulness.get_few_shot_examples addr) "No") ∧
    (¬ strContains (Faithfulness.get_few_shot_examples addr)
        "The context does not contain any information to substantiate the response.") ∧
    strContains
      (pyFormat Faithfulness.USER_MESSAGE_TEMPLATE
        [c, r, Faithfulness.get_few_shot_examples addr]) "No" ∧
    ('M' ∉ c.data → 'M' ∉ r.data →
      ¬ strContains
        (pyFormat Faithfulness.USER_MESSAGE_TEMPLATE
          [c, r, Faithfulness.get_few_shot_examples addr])
        "Y Combinator is a startup accelerator launched in March 2005. It has been used to launch more than 4,000 companies") ∧
    ('T' ∉ c.data → 'T' ∉ r.data →
      ¬ strContains
        (pyFormat Faithfulness.USER_MESSAGE_TEMPLATE
          [c, r, Faithfulness.get_few_shot_examples addr])
        "The context does not contain any information to substantiate the response.") ∧
    ('5' ∉ c.data → '5' ∉ r.data → '5' ∉ addr.data →
      ¬ strContains
        (pyFormat Faithfulness.USER_MESSAGE_TEMPLATE
          [c, r, Faithfulness.get_few_shot_examples addr])
        "125,000") := by
  have haddrM : 'M' ∉ addr.data := fun h => absurd (haddr _ h) (by decide)
  have haddrComma : ',' ∉ addr.data := fun h => absurd (haddr _ h) (by decide)
  have haddrN : 'N' ∉ addr.data := fun h => absurd (haddr _ h) (by decide)
  have haddrT : 'T' ∉ addr.data := fun h => absurd (haddr _ h) (by decide)
  refine ⟨?_, ?_, ?_, ?_, ?_, ?_, ?_, ?_⟩
  · exact not_strContains_of_missing_char _ _ 'M' (by decide)
      (not_mem_examples_data addr 'M' (by decide) haddrM (by decide))
  · exact not_strContains_of_missing_char _ _ ',' (by decide)
      (not_mem_examples_data addr ',' (by decide) haddrComma (by decide))
  · exact not_strContains_of_missing_char _ _ 'N' (by decide)
      (not_mem_examples_data addr 'N' (by decide) haddrN (by decide))
  · exact not_strContains_of_missing_char _ _ 'T' (by decide)
      (not_mem_examples_data addr 'T' (by decide) haddrT (by decide))
  · rw [pyFormat_template]
    exact strContains_appendLeft UT0 (strContains_appendLeft c
      (strContains_appendLeft UT1 (strContains_appendLeft r
        (strContains_appendRight _ UT2_contains_No))))
  · intro hcM hrM
    exact not_strContains_of_missing_char _ _ 'M' (by decide)
      (not_mem_rendered_data c r _ 'M' (by decide) (by decide) (by decide) (by decide)
        hcM hrM (not_mem_examples_data addr 'M' (by decide) haddrM (by decide)))
  · intro hcT hrT
    exact not_strContains_of_missing_char _ _ 'T' (by decide)
      (not_mem_rendered_data c r _ 'T' (by decide) (by decide) (by decide) (by decide)
        hcT hrT (not_mem_examples_data addr 'T' (by decide) haddrT (by decide)))
  · intro hc5 hr5 ha5
    exact not_strContains_of_missing_char _ _ '5' (by decide)
      (not_mem_rendered_data c r _ '5' (by decide) (by decide) (by decide) (by decide)
        hc5 hr5 (not_mem_examples_data addr '5' (by decide) ha5 (by decide)))

set_option maxRecDepth 10000 in
/-- Witness for the amended C9 at the address "0x10ab" and the inputs "abc"
and "def", every hypothesis discharged concretely. -/
theorem examples_default_repr_contents_witness :
    (¬ strContains (Faithfulness.get_few_shot_examples "0x10ab")
        "Y Combinator is a startup accelerator launched in March 2005. It has been used to launch more than 4,000 companies") ∧
    (¬ strContains (Faithfulness.get_few_shot_examples "0x10ab") "125,000") ∧
    (¬ strContains (Faithfulness.get_few_shot_examples "0x10ab") "No") ∧
    (¬ strContains (Faithfulness.get_few_shot_examples "0x10ab")
        "The context does not contain any information to substantiate the response.") ∧
    strContains
      (pyFormat Faithfulness.USER_MESSAGE_TEMPLATE
        ["abc", "def", Faithfulness.get_few_shot_examples "0x10ab"]) "No" ∧
    (¬ strContains
      (pyFormat Faithfulness.USER_MESSAGE_TEMPLATE
        ["abc", "def", Faithfulness.get_few_shot_examples "0x10ab"])
      "Y Combinator is a startup accelerator launched in March 2005. It has been used to launch more than 4,000 companies") ∧
    (¬ strContains
      (pyFormat Faithfulness.USER_MESSAGE_TEMPLATE
        ["abc", "def", Faithfulness.get_few_shot_examples "0x10ab"])
      "The context does not contain any information to substantiate the response.") ∧
    (¬ strContains
      (pyFormat Faithfulness.USER_MESSAGE_TEMPLATE
        ["abc", "def", Faithfulness.get_few_shot_examples "0x10ab"])
      "125,000") := by
  obtain ⟨h1, h2, h3, h4, h5, h6, h7, h8⟩ :=
    examples_default_repr_contents "0x10ab" "abc" "def" (by decide)
  exact ⟨h1, h2, h3, h4, h5, h6 (by decide) (by decide), h7 (by decide) (by decide),
    h8 (by decide) (by decide) (by decide)⟩

/-- C10: `compute` depends only on the bindings of "verdict" and
"explanation": two dicts that agree on those two lookups get identical
results, whatever other keys they hold. -/
theorem compute_depends_only_on_two_keys (d1 d2 : PyDict)
    (hv : d1.lookup "verdict" = d2.lookup "verdict")
    (he : d1.lookup "explanation" = d2.lookup "explanation") :
    FaithfulnessFailure.compute d1 = FaithfulnessFailure.compute d2 := by
  unfold FaithfulnessFailure.compute
  rw [hv, he]

/-- Witness for C10: a dict with an extra key against its two-key core. -/
theorem compute_depends_only_on_two_keys_witness :
    FaithfulnessFailure.compute
        [("verdict", "no"), ("explanation", "E"), ("extra", "ignored")]
      = FaithfulnessFailure.compute [("verdict", "no"), ("explanation", "E")] :=
  compute_depends_only_on_two_keys
    [("verdict", "no"), ("explanation", "E"), ("extra", "ignored")]
    [("verdict", "no"), ("explanation", "E")] rfl rfl
